import Mathlib

/-!
Verification of the sidsports betting-predictor core.

The development shallowly embeds the decision logic of the repository:
`advanced_predictor.py` (class `AdvancedPredictor`: player-prop and
team-stat analysis plus the prop-parlay composer) and `app/predictor.py`
(class `BettingPredictor`: implied-probability normalization, probability
adjustment and the game-parlay composer), with the constants of
`app/config.py`.

Modelling conventions:
* Python floats are embedded as exact rationals (`ℚ`).
* A Python dict of per-game stats is a key/value list (`Game`); `g.get(k, 0)`
  is `getStat`.
* `np.mean`, `np.median` and the square of `np.std` (the population
  variance) are `listMean`, `listMedian`, `listVariance`.  The standard
  deviation itself is an irrational square root in general, so functions
  that consume it take it as an explicit argument `std`; the predicate
  `IsStdOf values std` characterizes the intended value (the nonnegative
  square root of the population variance).
* A division whose denominator the source does not guard is embedded as
  `Option`-valued: `none` where the denominator is zero (exact arithmetic
  has no value there; the floating-point source produces an IEEE infinity
  or NaN instead of raising).
* Python's stable `list.sort(key=..., reverse=True)` is embedded as
  `List.insertionSort` with the corresponding non-strict descending
  relation (also a stable sort).
-/

set_option linter.unusedVariables false

namespace Sidsports

/-- A recorded game: a finite key/value map from stat names to numbers
(a Python dict such as `{'points': 28, 'assists': 6}`). -/
abbrev Game := List (String × ℚ)

/-- Python `g.get(key, 0)`: the value stored under `key`, defaulting to 0. -/
def getStat (g : Game) (key : String) : ℚ :=
  match g.find? (fun p => p.1 == key) with
  | some p => p.2
  | none => 0

/-- Arithmetic mean, `np.mean` (the empty list never reaches it in the
pipeline: histories have at least 10 games). -/
def listMean (l : List ℚ) : ℚ := l.sum / (l.length : ℚ)

/-- Population variance, the square of `np.std`. -/
def listVariance (l : List ℚ) : ℚ :=
  ((l.map (fun x => (x - listMean l) ^ 2)).sum) / (l.length : ℚ)

/-- Median, `np.median`: middle of the sorted list, or the mean of the two
middle elements for an even length. -/
def listMedian (l : List ℚ) : ℚ :=
  let s := List.insertionSort (fun a b => a ≤ b) l
  let n := l.length
  if n = 0 then 0
  else if n % 2 = 1 then s.getD (n / 2) 0
  else (s.getD (n / 2 - 1) 0 + s.getD (n / 2) 0) / 2

/-- The value `np.std(values)` that the source feeds to the confidence
formula: the nonnegative square root of the population variance.  It is
irrational in general, hence carried as an explicit argument wherever the
source uses it, constrained by this predicate. -/
def IsStdOf (values : List ℚ) (std : ℚ) : Prop :=
  0 ≤ std ∧ std ^ 2 = listVariance values

namespace AdvancedPredictor

/-- AdvancedPredictor.__init__: self.min_confidence = 0.90. -/
def min_confidence : ℚ := 0.90

/-- AdvancedPredictor.__init__: self.min_odds = 1.10. -/
def min_odds : ℚ := 1.10

/-- AdvancedPredictor.__init__: self.max_odds = 1.50. -/
def max_odds : ℚ := 1.50

/-- AdvancedPredictor.__init__: self.min_games_sample = 10. -/
def min_games_sample : Nat := 10

/-- Historical stats for one player, the `player_stats` dict: a name and a
chronologically ordered list of games (oldest first). -/
structure PlayerStats where
  name : String
  games : List Game
deriving DecidableEq

/-- Historical stats for one team, the `team_stats` dict. -/
structure TeamStats where
  name : String
  games : List Game
deriving DecidableEq

/-- The result dict of `analyze_player_prop`.  Keys absent from a given
return site are `none`; the generated natural-language `reasoning` text is
not modelled (its numeric string formatting is outside the scope of the
embedding), the reason strings of the two negative return sites are. -/
structure PropResult where
  recommended : Bool
  confidence : Option ℚ
  reason : Option String
  prop_type : Option String
  prop_line : Option ℚ
  player_avg : Option ℚ
  recent_avg : Option ℚ
  hit_rate : Option ℚ
  recent_hit_rate : Option ℚ
deriving DecidableEq

/-- The values list of `analyze_player_prop`: the last 20 games
(`games[-20:]`), each projected to the prop stat with default 0. -/
def propValues (player_stats : PlayerStats) (prop_type : String) : List ℚ :=
  ((player_stats.games).drop (player_stats.games.length - 20)).map
    (fun g => getStat g prop_type)

/-- The last 5 of the windowed values (`values[-5:]`). -/
def propRecentValues (player_stats : PlayerStats) (prop_type : String) : List ℚ :=
  let values := propValues player_stats prop_type
  values.drop (values.length - 5)

/-- hit_rate of `analyze_player_prop`: strictly-over count divided by the
window length (`over_count / len(values)`). -/
def propHitRate (player_stats : PlayerStats) (prop_line : ℚ) (prop_type : String) : ℚ :=
  let values := propValues player_stats prop_type
  ((values.countP (fun v => decide (prop_line < v)) : Nat) : ℚ) / (values.length : ℚ)

/-- recent_hit_rate of `analyze_player_prop`: strictly-over count of the
last five values divided by the constant 5 (`recent_over / 5`). -/
def propRecentHitRate (player_stats : PlayerStats) (prop_line : ℚ) (prop_type : String) : ℚ :=
  ((propRecentValues player_stats prop_type).countP (fun v => decide (prop_line < v)) : ℚ) / 5

/-- AdvancedPredictor._calculate_prop_confidence.  Source order: margin and
its capped score, hit score, recent score, the consistency branch on
`std > 0`, then the sum capped at 0.99.  The two unguarded divisions of
the source — `(avg - prop_line) / prop_line` and `1 / (1 + std / avg)` —
are embedded as `none` where their denominators vanish. -/
def calculate_prop_confidence (avg median std prop_line hit_rate recent_hit_rate recent_avg : ℚ) :
    Option ℚ :=
  if prop_line = 0 then none
  else
    let margin := (avg - prop_line) / prop_line
    let margin_score := min (margin * 2) 0.30
    let hit_score := hit_rate * 0.25
    let recent_score := recent_hit_rate * 0.30
    if 0 < std then
      if avg = 0 ∨ 1 + std / avg = 0 then none
      else
        let consistency := 1 / (1 + std / avg)
        let consistency_score := consistency * 0.15
        some (min (margin_score + hit_score + recent_score + consistency_score) 0.99)
    else
      some (min (margin_score + hit_score + recent_score + 0.15) 0.99)

/-- AdvancedPredictor.analyze_player_prop.  An empty or undersized history
(`not player_stats or len(...) < 10`, both covered by the length test)
short-circuits to the insufficient-data dict; otherwise the windowed
statistics feed `_calculate_prop_confidence` and the 0.90 gate picks the
return site.  `std` is the standard deviation of the windowed values
(see `IsStdOf`). -/
def analyze_player_prop (player_stats : PlayerStats) (prop_line : ℚ) (prop_type : String)
    (std : ℚ) : Option PropResult :=
  if player_stats.games.length < min_games_sample then
    some { recommended := false, confidence := none,
           reason := some "Insufficient historical data",
           prop_type := none, prop_line := none, player_avg := none,
           recent_avg := none, hit_rate := none, recent_hit_rate := none }
  else
    let values := propValues player_stats prop_type
    let avg := listMean values
    let median := listMedian values
    let hit_rate := propHitRate player_stats prop_line prop_type
    let recent_avg := listMean (propRecentValues player_stats prop_type)
    let recent_hit_rate := propRecentHitRate player_stats prop_line prop_type
    (calculate_prop_confidence avg median std prop_line hit_rate recent_hit_rate
        recent_avg).map
      (fun confidence =>
        if confidence < min_confidence then
          { recommended := false, confidence := some confidence,
            reason := some "Confidence below 90% threshold",
            prop_type := none, prop_line := none, player_avg := none,
            recent_avg := none, hit_rate := none, recent_hit_rate := none }
        else
          { recommended := true, confidence := some confidence, reason := none,
            prop_type := some prop_type, prop_line := some prop_line,
            player_avg := some avg, recent_avg := some recent_avg,
            hit_rate := some hit_rate, recent_hit_rate := some recent_hit_rate })

/-- The result dict of `analyze_team_stat_prop` (reasoning text not
modelled, as for `PropResult`). -/
structure TeamResult where
  recommended : Bool
  confidence : Option ℚ
  reason : Option String
  stat_type : Option String
  prop_line : Option ℚ
  team_avg : Option ℚ
  hit_rate : Option ℚ
deriving DecidableEq

/-- The values list of `analyze_team_stat_prop`: the last 15 games
(`games[-15:]`) projected to the stat. -/
def teamValues (team_stats : TeamStats) (stat_type : String) : List ℚ :=
  ((team_stats.games).drop (team_stats.games.length - 15)).map
    (fun g => getStat g stat_type)

/-- hit_rate of `analyze_team_stat_prop`: `over_count / len(values)`. -/
def teamHitRate (team_stats : TeamStats) (prop_line : ℚ) (stat_type : String) : ℚ :=
  let values := teamValues team_stats stat_type
  ((values.countP (fun v => decide (prop_line < v)) : Nat) : ℚ) / (values.length : ℚ)

/-- margin of `analyze_team_stat_prop`:
`(avg - prop_line) / prop_line if prop_line > 0 else 0` (here the division
is guarded by the source itself). -/
def teamMargin (team_stats : TeamStats) (prop_line : ℚ) (stat_type : String) : ℚ :=
  if 0 < prop_line then (listMean (teamValues team_stats stat_type) - prop_line) / prop_line
  else 0

/-- AdvancedPredictor.analyze_team_stat_prop.  The source also computes
`np.median` and `np.std` of the values but uses neither in the confidence,
so the result is a total function of the history:
confidence = hit_rate * 0.50 + min(margin * 1.5, 0.30) + 0.10. -/
def analyze_team_stat_prop (team_stats : TeamStats) (prop_line : ℚ) (stat_type : String) :
    TeamResult :=
  if team_stats.games.length < min_games_sample then
    { recommended := false, confidence := none, reason := some "Insufficient data",
      stat_type := none, prop_line := none, team_avg := none, hit_rate := none }
  else
    let avg := listMean (teamValues team_stats stat_type)
    let hit_rate := teamHitRate team_stats prop_line stat_type
    let margin := teamMargin team_stats prop_line stat_type
    let confidence := hit_rate * 0.50 + min (margin * 1.5) 0.30 + 0.10
    if confidence < min_confidence then
      { recommended := false, confidence := some confidence,
        reason := some "Confidence below threshold",
        stat_type := none, prop_line := none, team_avg := none, hit_rate := none }
    else
      { recommended := true, confidence := some confidence, reason := none,
        stat_type := some stat_type, prop_line := some prop_line,
        team_avg := some avg, hit_rate := some hit_rate }

end AdvancedPredictor

namespace Config

/-- app/config.py: MIN_ODDS = 1.01. -/
def MIN_ODDS : ℚ := 1.01

/-- app/config.py: MAX_ODDS = 1.5. -/
def MAX_ODDS : ℚ := 1.5

/-- app/config.py: MIN_CONFIDENCE = 0.65. -/
def MIN_CONFIDENCE : ℚ := 0.65

/-- app/config.py: MAX_PARLAY_LEGS = 5. -/
def MAX_PARLAY_LEGS : Nat := 5

/-- app/config.py: BANKROLL_PERCENTAGE = 0.02. -/
def BANKROLL_PERCENTAGE : ℚ := 0.02

end Config

namespace BettingPredictor

/-- BettingPredictor.calculate_implied_probability:
`1 / odds if odds > 0 else 0`. -/
def calculate_implied_probability (odds : ℚ) : ℚ :=
  if 0 < odds then 1 / odds else 0

/-- The features dict returned by BettingPredictor._extract_features. -/
structure Features where
  home_advantage : ℚ
  form_differential : ℚ
  h2h_advantage : ℚ
  rest_advantage : ℚ
deriving DecidableEq

/-- BettingPredictor._extract_features: constant placeholder features,
home advantage 0.05 and the rest 0. -/
def extract_features : Features :=
  { home_advantage := 0.05, form_differential := 0, h2h_advantage := 0,
    rest_advantage := 0 }

/-- BettingPredictor._adjust_probability: add the home adjustment for side
'home', subtract it otherwise, then clamp into [0.01, 0.99]. -/
def adjust_probability (base_prob : ℚ) (features : Features) (side : String) : ℚ :=
  let adjustment :=
    if side = "home" then features.home_advantage + features.form_differential
    else -features.home_advantage - features.form_differential
  max 0.01 (min 0.99 (base_prob + adjustment))

/-- The odds of one game as BettingPredictor.analyze_game reads them:
decimal home and away odds, and an optional draw market
(`game.get('draw_odds', 0)` with Python falsiness for `None` and `0`). -/
structure GameOdds where
  home_odds : ℚ
  away_odds : ℚ
  draw_odds : Option ℚ
deriving DecidableEq

/-- The probability stage of BettingPredictor.analyze_game (its lines
42-56): implied probabilities, de-margining normalization when their sum
is positive, and the home/away feature adjustment.  The subsequent
outcome-selection loop of analyze_game is not needed by these claims and
is not modelled. -/
structure GameProbs where
  home_prob : ℚ
  away_prob : ℚ
  draw_prob : ℚ
  adjusted_home_prob : ℚ
  adjusted_away_prob : ℚ
deriving DecidableEq

/-- The probability computation of BettingPredictor.analyze_game. -/
def analyzeGameProbs (game : GameOdds) : GameProbs :=
  let home_prob := calculate_implied_probability game.home_odds
  let away_prob := calculate_implied_probability game.away_odds
  let draw_prob :=
    match game.draw_odds with
    | some d => if d = 0 then 0 else calculate_implied_probability d
    | none => 0
  let total_prob := home_prob + away_prob + draw_prob
  let normalized :=
    if 0 < total_prob then
      (home_prob / total_prob, away_prob / total_prob,
        if 0 < draw_prob then draw_prob / total_prob else 0)
    else (home_prob, away_prob, draw_prob)
  let features := extract_features
  { home_prob := normalized.1, away_prob := normalized.2.1, draw_prob := normalized.2.2,
    adjusted_home_prob := adjust_probability normalized.1 features "home",
    adjusted_away_prob := adjust_probability normalized.2.1 features "away" }

end BettingPredictor

/-- Python's `round(x, ndigits)` on exact decimal inputs: scale by
`10 ^ ndigits`, round half to even, scale back.  (On binary floats Python
rounds the nearest representable value; the claims never depend on that
difference.) -/
def pyRound (x : ℚ) (ndigits : Nat) : ℚ :=
  let m : ℚ := (10 : ℚ) ^ ndigits
  let y := x * m
  let f : ℤ := ⌊y⌋
  let r := y - (f : ℚ)
  let n : ℤ :=
    if r < 1/2 then f
    else if 1/2 < r then f + 1
    else if f % 2 = 0 then f else f + 1
  (n : ℚ) / m

namespace AdvancedPredictor

/-- One prop recommendation as the prop-parlay composer reads it: the
`recommended` flag and the `confidence` it sorts and multiplies.  (The
other keys of the dict are irrelevant to `generate_prop_parlay`.) -/
structure PropRec where
  recommended : Bool
  confidence : ℚ
deriving DecidableEq

/-- One parlay dict built by `generate_prop_parlay` (its `reasoning`
string is not modelled). -/
structure PropParlay where
  num_legs : Nat
  legs : List PropRec
  combined_confidence : ℚ
  estimated_odds : ℚ
  expected_value : ℚ
deriving DecidableEq

/-- The body of the per-size loop of `generate_prop_parlay`: the top
`size` legs of the sorted pool, their product confidence, the 0.90 floor
(`continue` = `none`), and the per-leg odds estimate
`max(min_odds, min(1/confidence if confidence > 0 else 1.5, max_odds))`
multiplied into the estimated odds. -/
def propParlayOfSize (sorted : List PropRec) (size : Nat) : Option PropParlay :=
  let legs := sorted.take size
  let combined_confidence := (legs.map (fun leg => leg.confidence)).prod
  if combined_confidence < 0.90 then none
  else
    let estimated_odds :=
      (legs.map (fun leg =>
        let leg_odds := if 0 < leg.confidence then 1 / leg.confidence else 1.5
        max min_odds (min leg_odds max_odds))).prod
    some { num_legs := size, legs := legs,
           combined_confidence := combined_confidence,
           estimated_odds := estimated_odds,
           expected_value := combined_confidence * estimated_odds - 1 }

/-- AdvancedPredictor.generate_prop_parlay (the source default for
`max_legs` is 8): filter to the recommended props, require at least 2,
sort descending by confidence, build one candidate per size in
`range(5, min(len + 1, max_legs + 1))`, rank by combined confidence and
return the top 5. -/
def generate_prop_parlay (all_props : List PropRec) (max_legs : Nat) : List PropParlay :=
  let valid_props := all_props.filter (fun p => p.recommended)
  if valid_props.length < 2 then []
  else
    let sorted := List.insertionSort (fun a b => b.confidence ≤ a.confidence) valid_props
    let parlays :=
      (List.range' 5 (min (valid_props.length + 1) (max_legs + 1) - 5)).filterMap
        (fun size => propParlayOfSize sorted size)
    (List.insertionSort (fun a b => b.combined_confidence ≤ a.combined_confidence)
      parlays).take 5

end AdvancedPredictor

namespace BettingPredictor

/-- One game recommendation as `generate_parlays` reads it: the
`recommended` flag, the `confidence_score` sort key, and the fields the
leg projection copies. -/
structure GameRec where
  recommended : Bool
  confidence_score : ℚ
  odds : ℚ
  predicted_probability : ℚ
  sport : String
  home_team : String
  away_team : String
  outcome : String
deriving DecidableEq

/-- One leg dict of a game parlay as `generate_parlays` writes it. -/
structure GameLeg where
  sport : String
  home_team : String
  away_team : String
  outcome : String
  odds : ℚ
  probability : ℚ
deriving DecidableEq

/-- The leg projection of `generate_parlays`. -/
def legOfBet (leg : GameRec) : GameLeg :=
  { sport := leg.sport, home_team := leg.home_team, away_team := leg.away_team,
    outcome := leg.outcome, odds := leg.odds, probability := leg.predicted_probability }

/-- One parlay dict built by `generate_parlays`. -/
structure GameParlay where
  legs : List GameLeg
  total_odds : ℚ
  combined_probability : ℚ
  num_legs : Nat
  expected_value : ℚ
  recommended_stake : ℚ
deriving DecidableEq

/-- The body of the per-size loop of `generate_parlays`: the top
`parlay_size` legs, their product odds and probability, and the viability
filter `combined_probability >= 0.4 and combined_odds <= 10.0`. -/
def gameParlayOfSize (sorted : List GameRec) (parlay_size : Nat) : Option GameParlay :=
  let legs := sorted.take parlay_size
  let combined_odds := (legs.map (fun leg => leg.odds)).prod
  let combined_probability := (legs.map (fun leg => leg.predicted_probability)).prod
  if 0.4 ≤ combined_probability ∧ combined_odds ≤ 10.0 then
    some { legs := legs.map legOfBet,
           total_odds := pyRound combined_odds 2,
           combined_probability := pyRound combined_probability 3,
           num_legs := parlay_size,
           expected_value := pyRound (combined_probability * combined_odds - 1) 3,
           recommended_stake := pyRound (Config.BANKROLL_PERCENTAGE * 100) 2 }
  else none

/-- BettingPredictor.generate_parlays: filter to the recommended bets,
require at least 2, sort descending by confidence_score, build one
candidate per size in `range(2, min(len + 1, MAX_PARLAY_LEGS + 1))`,
rank by (rounded) expected value and return the top 5. -/
def generate_parlays (predictions : List GameRec) : List GameParlay :=
  let valid_bets := predictions.filter (fun p => p.recommended)
  if valid_bets.length < 2 then []
  else
    let sorted :=
      List.insertionSort (fun a b => b.confidence_score ≤ a.confidence_score) valid_bets
    let parlays :=
      (List.range' 2 (min (valid_bets.length + 1) (Config.MAX_PARLAY_LEGS + 1) - 2)).filterMap
        (fun parlay_size => gameParlayOfSize sorted parlay_size)
    (List.insertionSort (fun a b => b.expected_value ≤ a.expected_value) parlays).take 5

end BettingPredictor

open AdvancedPredictor BettingPredictor

/-- A game worth 30 points. -/
def exGame30 : Game := [("points", 30)]

/-- A game worth 1 point. -/
def exGame1 : Game := [("points", 1)]

/-- Ten identical 30-point games: an accepted history with zero variance. -/
def exStats30 : PlayerStats := ⟨"P1", List.replicate 10 exGame30⟩

/-- Ten identical 1-point games: an accepted history far below a high line. -/
def exStats1 : PlayerStats := ⟨"P2", List.replicate 10 exGame1⟩

/-- Three games only: an undersized history. -/
def exStats3 : PlayerStats := ⟨"P3", List.replicate 3 exGame30⟩

/-- Ten identical 30-point team games. -/
def exTeam30 : TeamStats := ⟨"T1", List.replicate 10 exGame30⟩

/-- Ten identical 1-point team games. -/
def exTeam1 : TeamStats := ⟨"T2", List.replicate 10 exGame1⟩

/-- Three team games only: an undersized history. -/
def exTeam3 : TeamStats := ⟨"T3", List.replicate 3 exGame30⟩

/-- Six recommended props of confidence 0.95 (the spec §8 parlay scenario). -/
def exPropPool6 : List PropRec := List.replicate 6 ⟨true, 19/20⟩

/-- Five recommended props of confidence 0.99: a pool whose 5-leg parlay
survives the 0.90 floor. -/
def wPropPool : List PropRec := List.replicate 5 ⟨true, 99/100⟩

/-- The one parlay `generate_prop_parlay wPropPool 8` produces: all five
legs, product confidence 0.99^5, per-leg odds clamped up to 1.10. -/
def wPropParlay : PropParlay :=
  { num_legs := 5, legs := List.replicate 5 ⟨true, 99/100⟩,
    combined_confidence := (99/100)^5, estimated_odds := (11/10)^5,
    expected_value := (99/100)^5 * (11/10)^5 - 1 }

/-- A recommended game bet with probability 0.9 at odds 2. -/
def wGameBet : GameRec :=
  { recommended := true, confidence_score := 9/10, odds := 2,
    predicted_probability := 9/10, sport := "nba", home_team := "H",
    away_team := "A", outcome := "home" }

/-- A pool of two such bets. -/
def wGamePool : List GameRec := [wGameBet, wGameBet]

/-- The one parlay `generate_parlays wGamePool` produces. -/
def wGameParlay : GameParlay :=
  { legs := [legOfBet wGameBet, legOfBet wGameBet], total_odds := 4,
    combined_probability := 81/100, num_legs := 2, expected_value := 224/100,
    recommended_stake := 2 }

/-- Every confidence `_calculate_prop_confidence` actually returns is capped
at 0.99 (both branches return `min _ 0.99`). -/
lemma calc_confidence_le {avg median std prop_line hit recent ravg c : ℚ}
    (h : calculate_prop_confidence avg median std prop_line hit recent ravg = some c) :
    c ≤ 0.99 := by
  simp only [calculate_prop_confidence] at h
  split_ifs at h <;>
    first
      | exact Option.noConfusion h
      | (obtain rfl := Option.some.inj h; exact min_le_right _ _)

/-- Closed form of `_calculate_prop_confidence` where its two divisions are
defined. -/
lemma calc_confidence_eq {avg median std prop_line hit recent ravg : ℚ}
    (hline : ¬prop_line = 0) (hdef : 0 < std → ¬(avg = 0 ∨ 1 + std / avg = 0)) :
    calculate_prop_confidence avg median std prop_line hit recent ravg =
      some (min (min ((avg - prop_line) / prop_line * 2) 0.30 + hit * 0.25
        + recent * 0.30 + (if 0 < std then 1 / (1 + std / avg) * 0.15 else 0.15)) 0.99) := by
  unfold calculate_prop_confidence
  by_cases hs : 0 < std
  · simp [hline, hs, hdef hs]
  · simp [hline, hs]

/-- A count of matching elements over the length is at most 1. -/
lemma countP_div_le_one {p : ℚ → Bool} {l : List ℚ} (h : 0 < l.length) :
    ((l.countP p : Nat) : ℚ) / (l.length : ℚ) ≤ 1 := by
  rw [div_le_one (by exact_mod_cast h)]
  exact_mod_cast List.countP_le_length p

/-- A count of matching elements over the length is nonnegative. -/
lemma countP_div_nonneg {p : ℚ → Bool} {l : List ℚ} :
    0 ≤ ((l.countP p : Nat) : ℚ) / (l.length : ℚ) := by positivity

/-- The team window holds `min (history length) 15` values. -/
lemma teamValues_length (ts : TeamStats) (stype : String) :
    (teamValues ts stype).length = min ts.games.length 15 := by
  simp only [teamValues, List.length_map, List.length_drop]
  omega

/-- The player window holds `min (history length) 20` values. -/
lemma propValues_length (ps : PlayerStats) (ptype : String) :
    (propValues ps ptype).length = min ps.games.length 20 := by
  simp only [propValues, List.length_map, List.length_drop]
  omega

/-- The team hit rate lies in [0, 1] once the history is accepted. -/
lemma teamHitRate_le_one (ts : TeamStats) (line : ℚ) (stype : String)
    (h : 10 ≤ ts.games.length) : teamHitRate ts line stype ≤ 1 := by
  unfold teamHitRate
  exact countP_div_le_one (by rw [teamValues_length]; omega)

/-- The team confidence formula is bounded by 0.90. -/
lemma team_confidence_le (ts : TeamStats) (line : ℚ) (stype : String)
    (h : 10 ≤ ts.games.length) :
    teamHitRate ts line stype * 0.50 + min (teamMargin ts line stype * 1.5) 0.30 + 0.10
      ≤ 0.90 := by
  have h1 := teamHitRate_le_one ts line stype h
  have h2 : min (teamMargin ts line stype * 1.5) 0.30 ≤ 0.30 := min_le_right _ _
  linarith

/-- Both return sites of the confidence-gated dict carry the computed
confidence, so binding through `Option.map` recovers the scorer output. -/
lemma bind_conf_of_map {o : Option ℚ} {f : ℚ → PropResult} {c : ℚ}
    (hf : ∀ q, (f q).confidence = some q)
    (h : (o.map f).bind (fun r => r.confidence) = some c) : o = some c := by
  cases o with
  | none => simp at h
  | some q => simpa [hf q] using h

/-- C1, amended: for every history accepted for analysis, the confidence
returned by the player-prop scorer and by the team-stat scorer is at most
0.99.  (The claimed lower bound 0 fails, see the counterexample: a mean far
below the line drives the margin score, and with it the whole confidence,
negative.) -/
theorem c1_confidence_cap_amended (player_stats : PlayerStats) (prop_line : ℚ)
    (prop_type : String) (std : ℚ) (team_stats : TeamStats) (tline : ℚ)
    (tstype : String) (c c' : ℚ)
    (hc : (analyze_player_prop player_stats prop_line prop_type std).bind
      (fun r => r.confidence) = some c)
    (hc' : (analyze_team_stat_prop team_stats tline tstype).confidence = some c') :
    c ≤ 0.99 ∧ c' ≤ 0.99 := by
  constructor
  · simp only [analyze_player_prop] at hc
    split_ifs at hc with hlen
    · simp at hc
    · exact calc_confidence_le (bind_conf_of_map (fun q => by split_ifs <;> rfl) hc)
  · simp only [analyze_team_stat_prop] at hc'
    split_ifs at hc' with hlen hth
    · replace hc' : teamHitRate team_stats tline tstype * 0.50
          + min (teamMargin team_stats tline tstype * 1.5) 0.30 + 0.10 = c' := by
        simpa using hc'
      have hlen' : 10 ≤ team_stats.games.length := by
        simp only [min_games_sample] at hlen; omega
      have hb := team_confidence_le team_stats tline tstype hlen'
      linarith
    · replace hc' : teamHitRate team_stats tline tstype * 0.50
          + min (teamMargin team_stats tline tstype * 1.5) 0.30 + 0.10 = c' := by
        simpa using hc'
      have hlen' : 10 ≤ team_stats.games.length := by
        simp only [min_games_sample] at hlen; omega
      have hb := team_confidence_le team_stats tline tstype hlen'
      linarith

/-- C1, counterexample: a 10-game history of constant value 1 against line
100 is accepted (and has standard deviation 0), yet both scorers return a
negative confidence, violating the claimed lower bound 0. -/
theorem c1_confidence_cap_counterexample :
    10 ≤ exStats1.games.length ∧ IsStdOf (propValues exStats1 "points") 0 ∧
    (analyze_player_prop exStats1 100 "points" 0).bind (fun r => r.confidence)
      = some (-183/100) ∧ ¬(0 ≤ (-183/100 : ℚ)) ∧
    (analyze_team_stat_prop exTeam1 100 "points").confidence = some (-277/200) ∧
    ¬(0 ≤ (-277/200 : ℚ)) := by
  refine ⟨by simp [exStats1], ⟨le_refl 0, ?_⟩, ?_, by norm_num, ?_, by norm_num⟩
  · norm_num [listVariance, listMean, propValues, exStats1, exGame1, getStat,
      List.find?, List.replicate]
  · norm_num [analyze_player_prop, propValues, exStats1, exGame1, getStat, List.find?,
      listMean, listMedian, listVariance, propHitRate, propRecentHitRate,
      propRecentValues, calculate_prop_confidence, min_games_sample, min_confidence,
      List.insertionSort, List.orderedInsert, List.countP_cons, List.countP_nil,
      List.replicate, decide_eq_true_eq]
  · norm_num [analyze_team_stat_prop, teamValues, teamHitRate, teamMargin, exTeam1,
      exGame1, getStat, List.find?, listMean, min_games_sample, min_confidence,
      List.countP_cons, List.countP_nil, List.replicate, decide_eq_true_eq]

/-- C1, witness for the amended cap: the all-30 history against line 20.5
reaches the cap 0.99 on the player side and exactly 0.90 on the team side
(line 20), both at most 0.99. -/
theorem c1_confidence_cap_witness :
    (analyze_player_prop exStats30 (41/2) "points" 0).bind (fun r => r.confidence)
      = some (99/100) ∧
    (analyze_team_stat_prop exTeam30 20 "points").confidence = some (9/10) ∧
    (99/100 : ℚ) ≤ 0.99 ∧ (9/10 : ℚ) ≤ 0.99 := by
  have h1 : (analyze_player_prop exStats30 (41/2) "points" 0).bind
      (fun r => r.confidence) = some (99/100) := by
    norm_num [analyze_player_prop, propValues, exStats30, exGame30, getStat, List.find?,
      listMean, listMedian, listVariance, propHitRate, propRecentHitRate,
      propRecentValues, calculate_prop_confidence, min_games_sample, min_confidence,
      List.insertionSort, List.orderedInsert, List.countP_cons, List.countP_nil,
      List.replicate, decide_eq_true_eq]
  have h2 : (analyze_team_stat_prop exTeam30 20 "points").confidence = some (9/10) := by
    norm_num [analyze_team_stat_prop, teamValues, teamHitRate, teamMargin, exTeam30,
      exGame30, getStat, List.find?, listMean, min_games_sample, min_confidence,
      List.countP_cons, List.countP_nil, List.replicate, decide_eq_true_eq]
  have h3 := c1_confidence_cap_amended exStats30 (41/2) "points" 0 exTeam30 20 "points"
    (99/100) (9/10) h1 h2
  exact ⟨h1, h2, h3.1, h3.2⟩

/-- C2, amended: non-positive odds fall back to implied probability 0; a
zero standard deviation falls back to the flat consistency score 0.15; and
the team-stat analyzer guards line = 0 with margin fallback 0, returning a
normal result.  (The player-prop scorer, by contrast, divides by the line
unguarded, so line = 0 has no defined fallback there — see the
counterexample.) -/
theorem c2_fallbacks_amended :
    (∀ odds : ℚ, odds ≤ 0 → calculate_implied_probability odds = 0) ∧
    (∀ avg median prop_line hit recent ravg : ℚ, prop_line ≠ 0 →
      calculate_prop_confidence avg median 0 prop_line hit recent ravg =
        some (min (min ((avg - prop_line) / prop_line * 2) 0.30 + hit * 0.25
          + recent * 0.30 + 0.15) 0.99)) ∧
    (∀ ts : TeamStats, ∀ stype : String, teamMargin ts 0 stype = 0) ∧
    (∀ ts : TeamStats, ∀ stype : String, 10 ≤ ts.games.length →
      (analyze_team_stat_prop ts 0 stype).recommended = false ∧
      (analyze_team_stat_prop ts 0 stype).confidence =
        some (teamHitRate ts 0 stype * 0.50 + 0.10)) := by
  refine ⟨?_, ?_, ?_, ?_⟩
  · intro odds h
    unfold calculate_implied_probability
    rw [if_neg (not_lt.mpr h)]
  · intro avg median prop_line hit recent ravg hline
    rw [calc_confidence_eq hline (fun h => absurd h (by norm_num))]
    norm_num
  · intro ts stype
    simp [teamMargin]
  · intro ts stype hlen
    have h1 := teamHitRate_le_one ts 0 stype hlen
    have hm : teamMargin ts 0 stype = 0 := by simp [teamMargin]
    have hmin : min (teamMargin ts 0 stype * 1.5) 0.30 = 0 := by
      rw [hm]; norm_num [min_def]
    have hth : teamHitRate ts 0 stype * 0.50 + min (teamMargin ts 0 stype * 1.5) 0.30
        + 0.10 < min_confidence := by
      rw [hmin]; unfold min_confidence; linarith
    simp only [analyze_team_stat_prop]
    rw [if_neg (by simp only [min_games_sample]; omega), if_pos hth]
    refine ⟨rfl, ?_⟩
    rw [hmin]
    norm_num

/-- C2, counterexample: the player-prop scorer has no fallback for
line = 0 — its margin `(avg - prop_line) / prop_line` is an unguarded
division, undefined over exact arithmetic at a zero line (the
floating-point source evaluates it to an IEEE infinity, or NaN when the
mean is 0 as well, not to any substituted fallback value). -/
theorem c2_fallbacks_counterexample :
    analyze_player_prop exStats30 0 "points" 0 = none ∧
    calculate_prop_confidence 30 30 0 0 1 1 30 = none := by
  constructor
  · simp [analyze_player_prop, exStats30, min_games_sample, calculate_prop_confidence]
  · simp [calculate_prop_confidence]

/-- C2, witness: negative odds give probability 0; a zero standard
deviation gives the flat 0.15 consistency (reaching 0.99 total on the
scenario input); the team analyzer at line 0 takes margin 0 and still
returns a normal non-recommendation. -/
theorem c2_fallbacks_witness :
    calculate_implied_probability (-2) = 0 ∧
    calculate_prop_confidence 30 30 0 (41/2) 1 1 30 = some (99/100) ∧
    teamMargin exTeam30 0 "points" = 0 ∧
    (analyze_team_stat_prop exTeam30 0 "points").recommended = false := by
  refine ⟨c2_fallbacks_amended.1 (-2) (by norm_num), ?_,
    c2_fallbacks_amended.2.2.1 exTeam30 "points",
    (c2_fallbacks_amended.2.2.2 exTeam30 "points" (by simp [exTeam30])).1⟩
  rw [c2_fallbacks_amended.2.1 30 30 (41/2) 1 1 30 (by norm_num)]
  norm_num [min_def]

/-- C3: a history of fewer than 10 samples makes both entry points return
the insufficient-data dict: recommended = false, the insufficient-data
reason string, and no confidence key at all. -/
theorem c3_insufficient_data (ps : PlayerStats) (line : ℚ) (ptype : String) (std : ℚ)
    (ts : TeamStats) (tline : ℚ) (tstype : String)
    (hp : ps.games.length < 10) (ht : ts.games.length < 10) :
    analyze_player_prop ps line ptype std =
      some { recommended := false, confidence := none,
             reason := some "Insufficient historical data",
             prop_type := none, prop_line := none, player_avg := none,
             recent_avg := none, hit_rate := none, recent_hit_rate := none } ∧
    analyze_team_stat_prop ts tline tstype =
      { recommended := false, confidence := none,
        reason := some "Insufficient data",
        stat_type := none, prop_line := none, team_avg := none,
        hit_rate := none } := by
  constructor
  · simp [analyze_player_prop, min_games_sample, hp]
  · simp [analyze_team_stat_prop, min_games_sample, ht]

/-- C3, witness: a 3-game history triggers the insufficient-data result in
both analyzers. -/
theorem c3_insufficient_data_witness :
    analyze_player_prop exStats3 (41/2) "points" 0 =
      some { recommended := false, confidence := none,
             reason := some "Insufficient historical data",
             prop_type := none, prop_line := none, player_avg := none,
             recent_avg := none, hit_rate := none, recent_hit_rate := none } ∧
    analyze_team_stat_prop exTeam3 (41/2) "points" =
      { recommended := false, confidence := none,
        reason := some "Insufficient data",
        stat_type := none, prop_line := none, team_avg := none,
        hit_rate := none } :=
  c3_insufficient_data exStats3 (41/2) "points" 0 exTeam3 (41/2) "points"
    (by simp [exStats3]) (by simp [exTeam3])

/-- C4: on the domain of the formula (line nonzero, the consistency
denominators nonzero when the deviation is positive) the player-prop
confidence is exactly min(0.99, margin_score + hit_score + recent_score +
consistency_score) with the claimed component scores. -/
theorem c4_prop_confidence_formula (avg median std prop_line hit recent ravg : ℚ)
    (hline : prop_line ≠ 0) (hstd : 0 ≤ std)
    (hdef : 0 < std → avg ≠ 0 ∧ 1 + std / avg ≠ 0) :
    calculate_prop_confidence avg median std prop_line hit recent ravg =
      some (min 0.99 (min ((avg - prop_line) / prop_line * 2) 0.30 + hit * 0.25
        + recent * 0.30 + (if std = 0 then 0.15 else 1 / (1 + std / avg) * 0.15))) := by
  rw [calc_confidence_eq hline (fun hs => by
    rcases hdef hs with ⟨h1, h2⟩
    simp [h1, h2])]
  rw [min_comm]
  have hif : (if 0 < std then 1 / (1 + std / avg) * 0.15 else (0.15 : ℚ))
      = (if std = 0 then 0.15 else 1 / (1 + std / avg) * 0.15) := by
    rcases eq_or_lt_of_le hstd with h | h
    · rw [if_neg (by rw [← h]; exact lt_irrefl 0), if_pos h.symm]
    · rw [if_pos h, if_neg (ne_of_gt h)]
  rw [hif]

/-- C4, witness: the spec §8 scenario — mean 30, deviation 0, line 20.5,
both hit rates 1 — where the formula evaluates to the capped 0.99. -/
theorem c4_prop_confidence_formula_witness :
    calculate_prop_confidence 30 30 0 (41/2) 1 1 30
      = some (min 0.99 (min ((30 - 41/2) / (41/2) * 2) 0.30 + 1 * 0.25 + 1 * 0.30
          + (if (0 : ℚ) = 0 then 0.15 else 1 / (1 + 0 / 30) * 0.15))) ∧
    calculate_prop_confidence 30 30 0 (41/2) 1 1 30 = some 0.99 := by
  have h := c4_prop_confidence_formula 30 30 0 (41/2) 1 1 30 (by norm_num) le_rfl
    (fun hs => absurd hs (by norm_num))
  refine ⟨h, ?_⟩
  rw [h]
  norm_num [min_def]

/-- C7, amended: the player hit-rate divides the strictly-over count by the
number of samples actually in the window — min(history length, 20) — which
equals 20 exactly when the history has at least 20 samples; the recent
hit-rate is the strictly-over count of the last 5 samples divided by 5.
Both rates are what a recommended result dict reports. -/
theorem c7_hit_rate_amended (ps : PlayerStats) (line : ℚ) (ptype : String)
    (h : 10 ≤ ps.games.length) :
    propHitRate ps line ptype =
      ((propValues ps ptype).countP (fun v => decide (line < v)) : ℚ)
        / ((min ps.games.length 20 : Nat) : ℚ) ∧
    (propRecentValues ps ptype).length = 5 ∧
    propRecentHitRate ps line ptype =
      ((propRecentValues ps ptype).countP (fun v => decide (line < v)) : ℚ) / 5 ∧
    (20 ≤ ps.games.length →
      propHitRate ps line ptype =
        ((propValues ps ptype).countP (fun v => decide (line < v)) : ℚ) / 20) ∧
    (∀ std : ℚ, ∀ r : PropResult, analyze_player_prop ps line ptype std = some r →
      r.recommended = true →
      r.hit_rate = some (propHitRate ps line ptype) ∧
      r.recent_hit_rate = some (propRecentHitRate ps line ptype)) := by
  refine ⟨?_, ?_, ?_, ?_, ?_⟩
  · simp only [propHitRate]
    rw [propValues_length]
  · simp only [propRecentValues, List.length_drop, propValues_length]
    omega
  · rfl
  · intro h20
    simp only [propHitRate]
    rw [propValues_length]
    have hm : min ps.games.length 20 = 20 := by omega
    rw [hm]
    norm_num
  · intro std r hr hrec
    simp only [analyze_player_prop] at hr
    split_ifs at hr with hlen
    · exfalso
      simp only [min_games_sample] at hlen
      omega
    · obtain ⟨q, hq, rfl⟩ := Option.map_eq_some'.mp hr
      split_ifs at hrec ⊢ with hqc
      · exact ⟨rfl, rfl⟩

/-- C7, counterexample: an accepted 10-game history of constant 30 against
line 20.5 reports hit-rate 1 (the 10-sample window divided by its own
length 10), not the claimed count-over-20 = 1/2. -/
theorem c7_hit_rate_counterexample :
    10 ≤ exStats30.games.length ∧ IsStdOf (propValues exStats30 "points") 0 ∧
    (analyze_player_prop exStats30 (41/2) "points" 0).bind (fun r => r.hit_rate)
      = some 1 ∧
    ((propValues exStats30 "points").countP (fun v => decide ((41/2 : ℚ) < v)) : ℚ) / 20
      = 1/2 ∧
    ¬((1 : ℚ) = 1/2) := by
  refine ⟨by simp [exStats30], ⟨le_refl 0, ?_⟩, ?_, ?_, by norm_num⟩
  · norm_num [listVariance, listMean, propValues, exStats30, exGame30, getStat,
      List.find?, List.replicate]
  · norm_num [analyze_player_prop, propValues, exStats30, exGame30, getStat, List.find?,
      listMean, listMedian, listVariance, propHitRate, propRecentHitRate,
      propRecentValues, calculate_prop_confidence, min_games_sample, min_confidence,
      List.insertionSort, List.orderedInsert, List.countP_cons, List.countP_nil,
      List.replicate, decide_eq_true_eq]
  · norm_num [propValues, exStats30, exGame30, getStat, List.find?, List.replicate,
      List.countP_cons, List.countP_nil, decide_eq_true_eq]

/-- C7, witness for the amended statement, at the 10-game history (window
of 10 and a 5-sample recent window). -/
theorem c7_hit_rate_amended_witness :
    propHitRate exStats30 (41/2) "points" =
      ((propValues exStats30 "points").countP (fun v => decide ((41/2 : ℚ) < v)) : ℚ)
        / ((min exStats30.games.length 20 : Nat) : ℚ) ∧
    (propRecentValues exStats30 "points").length = 5 :=
  ⟨(c7_hit_rate_amended exStats30 (41/2) "points" (by simp [exStats30])).1,
   (c7_hit_rate_amended exStats30 (41/2) "points" (by simp [exStats30])).2.1⟩

/-- C8: with mean, median, deviation, overall hit rate and line fixed (on
the formula's domain), the player-prop confidence is monotone
non-decreasing in the recent-5-game hit rate. -/
theorem c8_recent_monotone (avg median std prop_line hit r1 r2 ravg c1 c2 : ℚ)
    (hline : prop_line ≠ 0) (hdef : 0 < std → ¬(avg = 0 ∨ 1 + std / avg = 0))
    (hr : r1 ≤ r2)
    (h1 : calculate_prop_confidence avg median std prop_line hit r1 ravg = some c1)
    (h2 : calculate_prop_confidence avg median std prop_line hit r2 ravg = some c2) :
    c1 ≤ c2 := by
  rw [calc_confidence_eq hline hdef] at h1 h2
  obtain rfl := Option.some.inj h1
  obtain rfl := Option.some.inj h2
  exact min_le_min (by linarith) le_rfl

/-- C8, witness: raising the recent hit rate from 0 to 1 on the scenario
input raises the confidence from 0.70 to 0.99. -/
theorem c8_recent_monotone_witness : (7/10 : ℚ) ≤ 99/100 := by
  have h1 : calculate_prop_confidence 30 30 0 (41/2) 1 0 30 = some (7/10) := by
    norm_num [calculate_prop_confidence, min_def]
  have h2 : calculate_prop_confidence 30 30 0 (41/2) 1 1 30 = some (99/100) := by
    norm_num [calculate_prop_confidence, min_def]
  exact c8_recent_monotone 30 30 0 (41/2) 1 0 1 30 (7/10) (99/100) (by norm_num)
    (fun hs => absurd hs (by norm_num)) (by norm_num) h1 h2

/-- C10: every confidence the team-stat analyzer computes is at most 0.90,
and a recommendation forces the extreme case: windowed hit rate exactly 1,
margin at least 0.2, and confidence exactly 0.90. -/
theorem c10_team_confidence (ts : TeamStats) (line : ℚ) (stype : String) (c : ℚ)
    (hc : (analyze_team_stat_prop ts line stype).confidence = some c) :
    c ≤ 9/10 ∧
    ((analyze_team_stat_prop ts line stype).recommended = true →
      teamHitRate ts line stype = 1 ∧ 1/5 ≤ teamMargin ts line stype ∧ c = 9/10) := by
  simp only [analyze_team_stat_prop] at hc ⊢
  split_ifs at hc ⊢ with hlen hth
  · replace hc : teamHitRate ts line stype * 0.50
        + min (teamMargin ts line stype * 1.5) 0.30 + 0.10 = c := by
      simpa using hc
    have hlen' : 10 ≤ ts.games.length := by
      simp only [min_games_sample] at hlen; omega
    have hb := team_confidence_le ts line stype hlen'
    refine ⟨by linarith, ?_⟩
    intro habs
    simp at habs
  · replace hc : teamHitRate ts line stype * 0.50
        + min (teamMargin ts line stype * 1.5) 0.30 + 0.10 = c := by
      simpa using hc
    have hlen' : 10 ≤ ts.games.length := by
      simp only [min_games_sample] at hlen; omega
    have hb := team_confidence_le ts line stype hlen'
    simp only [min_confidence, not_lt] at hth
    have hhit := teamHitRate_le_one ts line stype hlen'
    have hminr : min (teamMargin ts line stype * 1.5) 0.30 ≤ 0.30 := min_le_right _ _
    have hminl : min (teamMargin ts line stype * 1.5) 0.30
        ≤ teamMargin ts line stype * 1.5 := min_le_left _ _
    refine ⟨by linarith, ?_⟩
    intro _
    refine ⟨by linarith, by linarith, by linarith⟩

/-- C10, witness: ten identical 30-point team games against line 20 — hit
rate 1, margin 0.5 — yield a recommendation at confidence exactly 0.90. -/
theorem c10_team_confidence_witness :
    (9/10 : ℚ) ≤ 9/10 ∧ teamHitRate exTeam30 20 "points" = 1 ∧
    (1/5 : ℚ) ≤ teamMargin exTeam30 20 "points" := by
  have hc : (analyze_team_stat_prop exTeam30 20 "points").confidence = some (9/10) := by
    norm_num [analyze_team_stat_prop, teamValues, teamHitRate, teamMargin, exTeam30,
      exGame30, getStat, List.find?, listMean, min_games_sample, min_confidence,
      List.countP_cons, List.countP_nil, List.replicate, decide_eq_true_eq]
  have hrec : (analyze_team_stat_prop exTeam30 20 "points").recommended = true := by
    norm_num [analyze_team_stat_prop, teamValues, teamHitRate, teamMargin, exTeam30,
      exGame30, getStat, List.find?, listMean, min_games_sample, min_confidence,
      List.countP_cons, List.countP_nil, List.replicate, decide_eq_true_eq]
  have h := c10_team_confidence exTeam30 20 "points" (9/10) hc
  exact ⟨h.1, (h.2 hrec).1, (h.2 hrec).2.1⟩

/-- Adjusting the 'home' side adds the 0.05 home advantage and clamps. -/
lemma adjust_home (p : ℚ) :
    adjust_probability p extract_features "home" = max 0.01 (min 0.99 (p + 0.05)) := by
  simp [adjust_probability, extract_features]

/-- Adjusting the 'away' side subtracts the 0.05 home advantage and
clamps. -/
lemma adjust_away (p : ℚ) :
    adjust_probability p extract_features "away" = max 0.01 (min 0.99 (p - 0.05)) := by
  simp [adjust_probability, extract_features]
  ring_nf

/-- On a two-outcome quote with positive odds the probability stage
normalizes the two implied probabilities and adjusts each side. -/
lemma analyzeGameProbs_two (ho ao : ℚ) (hh : 0 < ho) (ha : 0 < ao) :
    analyzeGameProbs ⟨ho, ao, none⟩ =
      { home_prob := (1/ho) / (1/ho + 1/ao + 0),
        away_prob := (1/ao) / (1/ho + 1/ao + 0),
        draw_prob := 0,
        adjusted_home_prob :=
          adjust_probability ((1/ho) / (1/ho + 1/ao + 0)) extract_features "home",
        adjusted_away_prob :=
          adjust_probability ((1/ao) / (1/ho + 1/ao + 0)) extract_features "away" } := by
  have htotal : (0:ℚ) < 1/ho + 1/ao + 0 := by positivity
  simp only [analyzeGameProbs, calculate_implied_probability, if_pos hh, if_pos ha]
  rw [if_pos htotal, if_neg (lt_irrefl (0:ℚ))]

/-- The two normalized probabilities sum to 1. -/
lemma norm_sum_one (ho ao : ℚ) (hh : 0 < ho) (ha : 0 < ao) :
    (1/ho) / (1/ho + 1/ao + 0) + (1/ao) / (1/ho + 1/ao + 0) = 1 := by
  have htotal : (0:ℚ) < 1/ho + 1/ao + 0 := by positivity
  field_simp

/-- C5: for a two-outcome quote with strictly positive odds, the
de-margined probabilities sum to 1 before the perturbation, the
perturbation is +0.05 on the home side and -0.05 on the away side (then
clamped), and each adjusted probability lies in [0.01, 0.99]. -/
theorem c5_two_outcome_normalization (home_odds away_odds : ℚ)
    (hh : 0 < home_odds) (ha : 0 < away_odds) :
    (analyzeGameProbs ⟨home_odds, away_odds, none⟩).home_prob
      + (analyzeGameProbs ⟨home_odds, away_odds, none⟩).away_prob = 1 ∧
    (analyzeGameProbs ⟨home_odds, away_odds, none⟩).adjusted_home_prob
      = max 0.01 (min 0.99
          ((analyzeGameProbs ⟨home_odds, away_odds, none⟩).home_prob + 0.05)) ∧
    (analyzeGameProbs ⟨home_odds, away_odds, none⟩).adjusted_away_prob
      = max 0.01 (min 0.99
          ((analyzeGameProbs ⟨home_odds, away_odds, none⟩).away_prob - 0.05)) ∧
    0.01 ≤ (analyzeGameProbs ⟨home_odds, away_odds, none⟩).adjusted_home_prob ∧
    (analyzeGameProbs ⟨home_odds, away_odds, none⟩).adjusted_home_prob ≤ 0.99 ∧
    0.01 ≤ (analyzeGameProbs ⟨home_odds, away_odds, none⟩).adjusted_away_prob ∧
    (analyzeGameProbs ⟨home_odds, away_odds, none⟩).adjusted_away_prob ≤ 0.99 := by
  rw [analyzeGameProbs_two home_odds away_odds hh ha]
  refine ⟨norm_sum_one home_odds away_odds hh ha, adjust_home _, adjust_away _,
    ?_, ?_, ?_, ?_⟩
  · rw [adjust_home]
    exact le_max_left _ _
  · rw [adjust_home]
    exact max_le (by norm_num) (min_le_left _ _)
  · rw [adjust_away]
    exact le_max_left _ _
  · rw [adjust_away]
    exact max_le (by norm_num) (min_le_left _ _)

/-- C5, witness at the spec §8 odds quote home = 1.30, away = 3.50. -/
theorem c5_two_outcome_normalization_witness :
    (analyzeGameProbs ⟨13/10, 7/2, none⟩).home_prob
      + (analyzeGameProbs ⟨13/10, 7/2, none⟩).away_prob = 1 ∧
    0.01 ≤ (analyzeGameProbs ⟨13/10, 7/2, none⟩).adjusted_home_prob ∧
    (analyzeGameProbs ⟨13/10, 7/2, none⟩).adjusted_home_prob ≤ 0.99 := by
  have h := c5_two_outcome_normalization (13/10) (7/2) (by norm_num) (by norm_num)
  exact ⟨h.1, h.2.2.2.1, h.2.2.2.2.1⟩

/-- The prop-parlay composer returns at most 5 parlays. -/
lemma generate_prop_parlay_length (all_props : List PropRec) (ml : Nat) :
    (generate_prop_parlay all_props ml).length ≤ 5 := by
  simp only [generate_prop_parlay]
  split_ifs
  · simp
  · rw [List.length_take]
    exact min_le_left _ _

/-- The game-parlay composer returns at most 5 parlays. -/
lemma generate_parlays_length (predictions : List GameRec) :
    (generate_parlays predictions).length ≤ 5 := by
  simp only [generate_parlays]
  split_ifs
  · simp
  · rw [List.length_take]
    exact min_le_left _ _

/-- Every emitted prop parlay is the top-`size` slice of the
confidence-sorted recommended pool for some size in [5, pool size]. -/
lemma mem_generate_prop_parlay {all_props : List PropRec} {ml : Nat} {pp : PropParlay}
    (hpp : pp ∈ generate_prop_parlay all_props ml) :
    ∃ size, 5 ≤ size ∧ size ≤ (all_props.filter (fun p => p.recommended)).length ∧
      pp.legs = (List.insertionSort (fun a b => b.confidence ≤ a.confidence)
        (all_props.filter (fun p => p.recommended))).take size := by
  simp only [generate_prop_parlay] at hpp
  split_ifs at hpp with hlt
  · simp at hpp
  · have hpp1 := (List.perm_insertionSort
      (fun a b : PropParlay => b.combined_confidence ≤ a.combined_confidence) _).mem_iff.mp
      (List.take_subset 5 _ hpp)
    obtain ⟨size, hsize, heq⟩ := List.mem_filterMap.mp hpp1
    rw [List.mem_range'] at hsize
    obtain ⟨i, hi, rfl⟩ := hsize
    simp only [propParlayOfSize] at heq
    split_ifs at heq with hcc
    · obtain rfl := Option.some.inj heq
      exact ⟨5 + 1 * i, by omega, by omega, rfl⟩

/-- Every emitted game parlay projects the top-`size` slice of the
confidence-sorted recommended pool for some size in [2, pool size]. -/
lemma mem_generate_parlays {predictions : List GameRec} {gp : GameParlay}
    (hgp : gp ∈ generate_parlays predictions) :
    ∃ size, 2 ≤ size ∧ size ≤ (predictions.filter (fun p => p.recommended)).length ∧
      gp.legs = ((List.insertionSort (fun a b => b.confidence_score ≤ a.confidence_score)
        (predictions.filter (fun p => p.recommended))).take size).map legOfBet := by
  simp only [generate_parlays] at hgp
  split_ifs at hgp with hlt
  · simp at hgp
  · have hgp1 := (List.perm_insertionSort
      (fun a b : GameParlay => b.expected_value ≤ a.expected_value) _).mem_iff.mp
      (List.take_subset 5 _ hgp)
    obtain ⟨size, hsize, heq⟩ := List.mem_filterMap.mp hgp1
    rw [List.mem_range'] at hsize
    obtain ⟨i, hi, rfl⟩ := hsize
    simp only [gameParlayOfSize] at heq
    split_ifs at heq with hcc
    · obtain rfl := Option.some.inj heq
      exact ⟨2 + 1 * i, by omega, by omega, rfl⟩

/-- C6: both composers cap the output at 5 parlays and emit only parlays
of at least 2 legs, every leg drawn from the recommended subset of the
input pool. -/
theorem c6_parlay_composition (all_props : List PropRec) (max_legs : Nat)
    (predictions : List GameRec) (pp : PropParlay) (gp : GameParlay)
    (hpp : pp ∈ generate_prop_parlay all_props max_legs)
    (hgp : gp ∈ generate_parlays predictions) :
    (generate_prop_parlay all_props max_legs).length ≤ 5 ∧
    2 ≤ pp.legs.length ∧
    (∀ leg ∈ pp.legs, leg ∈ all_props.filter (fun p => p.recommended)) ∧
    (generate_parlays predictions).length ≤ 5 ∧
    2 ≤ gp.legs.length ∧
    (∀ leg ∈ gp.legs, ∃ b ∈ predictions.filter (fun p => p.recommended),
      leg = legOfBet b) := by
  obtain ⟨size, h5, hle, hlegs⟩ := mem_generate_prop_parlay hpp
  obtain ⟨gsize, g2, gle, glegs⟩ := mem_generate_parlays hgp
  have hsortlen := (List.perm_insertionSort
    (fun a b : PropRec => b.confidence ≤ a.confidence)
    (all_props.filter (fun p => p.recommended))).length_eq
  have gsortlen := (List.perm_insertionSort
    (fun a b : GameRec => b.confidence_score ≤ a.confidence_score)
    (predictions.filter (fun p => p.recommended))).length_eq
  refine ⟨generate_prop_parlay_length _ _, ?_, ?_, generate_parlays_length _, ?_, ?_⟩
  · rw [hlegs, List.length_take, hsortlen]
    omega
  · intro leg hleg
    rw [hlegs] at hleg
    exact (List.perm_insertionSort _ _).mem_iff.mp (List.take_subset _ _ hleg)
  · rw [glegs, List.length_map, List.length_take, gsortlen]
    omega
  · intro leg hleg
    rw [glegs] at hleg
    obtain ⟨b, hb, rfl⟩ := List.mem_map.mp hleg
    exact ⟨b, (List.perm_insertionSort _ _).mem_iff.mp (List.take_subset _ _ hb), rfl⟩

/-- C6, witness: a 5-prop pool at confidence 0.99 emits exactly one 5-leg
prop parlay; a 2-bet game pool at probability 0.9 and odds 2 emits exactly
one 2-leg game parlay; both satisfy the invariants. -/
theorem c6_parlay_composition_witness :
    (generate_prop_parlay wPropPool 8).length ≤ 5 ∧
    2 ≤ wPropParlay.legs.length ∧
    (∀ leg ∈ wPropParlay.legs, leg ∈ wPropPool.filter (fun p => p.recommended)) ∧
    (generate_parlays wGamePool).length ≤ 5 ∧
    2 ≤ wGameParlay.legs.length ∧
    (∀ leg ∈ wGameParlay.legs, ∃ b ∈ wGamePool.filter (fun p => p.recommended),
      leg = legOfBet b) := by
  have h1 : generate_prop_parlay wPropPool 8 = [wPropParlay] := by
    norm_num [generate_prop_parlay, propParlayOfSize, wPropPool, wPropParlay,
      List.replicate, List.insertionSort, List.orderedInsert, List.range',
      List.filterMap, min_odds, max_odds]
  have h2 : generate_parlays wGamePool = [wGameParlay] := by
    norm_num [generate_parlays, gameParlayOfSize, wGamePool, wGameParlay, wGameBet,
      legOfBet, List.insertionSort, List.orderedInsert, List.range', List.filterMap,
      Config.MAX_PARLAY_LEGS, Config.BANKROLL_PERCENTAGE, pyRound]
  exact c6_parlay_composition wPropPool 8 wGamePool wPropParlay wGameParlay
    (by rw [h1]; exact List.mem_singleton_self _)
    (by rw [h2]; exact List.mem_singleton_self _)

/-- C9: six recommended props at confidence 0.95 produce an empty parlay
list — the candidate sizes start at 5 and already the 5-leg product
0.95^5 falls below the 0.90 floor. -/
theorem c9_six_prop_pool_empty :
    exPropPool6.length = 6 ∧
    exPropPool6 = List.replicate 6 { recommended := true, confidence := 19/20 } ∧
    ((19/20 : ℚ)) ^ 5 < 9/10 ∧
    generate_prop_parlay exPropPool6 8 = [] := by
  refine ⟨by simp [exPropPool6], rfl, by norm_num, ?_⟩
  norm_num [generate_prop_parlay, propParlayOfSize, exPropPool6, List.replicate,
    List.insertionSort, List.orderedInsert, List.range', List.filterMap,
    min_odds, max_odds]

end Sidsports
